import Mathlib

/-!
Shallow embedding of the `equalexperts_dataeng_exercise` repository
(`ingest.py` and `outliers.py`).

The store is modelled explicitly: the `blog_analysis.votes` table is a list
of rows (`Option` marks whether the table exists yet), the `outlier_weeks`
view is modelled extensionally by the list of rows it yields, and the
connection / logging / print / exception effects of the two Python
functions are recorded in explicit result structures.  SQL numeric
aggregation (`AVG`, division) is modelled over `ℚ`.

`EXTRACT(YEAR ...)` / `EXTRACT(WEEK ...)` are the database engine's
(external collaborator's) date functions: calendar year of the timestamp,
and the ISO-8601 week number, implemented below on a proleptic Gregorian
calendar (Rata Die day numbering, day 1 = 0001-01-01, a Monday).
-/

/-- A calendar date (the date part of a `TIMESTAMP`); times of day play no
role in the weekly grouping. -/
structure Date where
  year : Nat
  month : Nat
  day : Nat
deriving DecidableEq, Repr

/-- Gregorian leap-year rule. -/
def isLeap (y : Nat) : Bool :=
  y % 4 == 0 && (y % 100 != 0 || y % 400 == 0)

/-- Number of days in month `m` of year `y`. -/
def daysInMonth (y : Nat) (m : Nat) : Nat :=
  if m = 2 then (if isLeap y then 29 else 28)
  else if m = 4 ∨ m = 6 ∨ m = 9 ∨ m = 11 then 30
  else 31

/-- 1-based ordinal day of the year of a date. -/
def dayOfYear (d : Date) : Nat :=
  (List.range (d.month - 1)).foldl (fun acc i => acc + daysInMonth d.year (i + 1)) 0 + d.day

/-- Days in all years strictly before year `y` (proleptic Gregorian). -/
def daysBeforeYear (y : Nat) : Nat :=
  365 * (y - 1) + (y - 1) / 4 - (y - 1) / 100 + (y - 1) / 400

/-- Rata Die day number: 0001-01-01 is day 1. -/
def rataDie (d : Date) : Nat :=
  daysBeforeYear d.year + dayOfYear d

/-- ISO weekday: Monday = 1 … Sunday = 7.  Day 1 (0001-01-01) is a Monday. -/
def isoWeekday (d : Date) : Nat :=
  (rataDie d + 6) % 7 + 1

/-- Number of ISO weeks in ISO year `y`: 53 iff Jan 1 falls on a Thursday,
or on a Wednesday in a leap year; else 52. -/
def weeksInISOYear (y : Nat) : Nat :=
  if isoWeekday ⟨y, 1, 1⟩ == 4 || (isLeap y && isoWeekday ⟨y, 1, 1⟩ == 3) then 53 else 52

/-- ISO-8601 (iso year, iso week) of a date. -/
def isoWeekPair (d : Date) : Nat × Nat :=
  let w := (dayOfYear d + 10 - isoWeekday d) / 7
  if w = 0 then (d.year - 1, weeksInISOYear (d.year - 1))
  else if weeksInISOYear d.year < w then (d.year + 1, 1)
  else (d.year, w)

/-- `EXTRACT(YEAR FROM CreationDate)`: the calendar year field. -/
def extractYear (d : Date) : Nat := d.year

/-- `EXTRACT(WEEK FROM CreationDate)`: the ISO week number (the week
component of the ISO week-date, detached from its ISO year). -/
def extractWeek (d : Date) : Nat := (isoWeekPair d).2

/-- A row of the `blog_analysis.votes` table. -/
structure Vote where
  Id : Int
  PostId : Int
  VoteTypeId : Int
  CreationDate : Date
deriving DecidableEq, Repr

/-- The weekly grouping key of a vote: `(EXTRACT(YEAR ...), EXTRACT(WEEK ...))`. -/
def bucketKey (v : Vote) : Nat × Nat :=
  (extractYear v.CreationDate, extractWeek v.CreationDate)

/-- Strict lexicographic order on grouping keys: `ORDER BY Year ASC, WeekNumber ASC`
between two distinct keys. -/
def keyLt (a b : Nat × Nat) : Prop :=
  a.1 < b.1 ∨ (a.1 = b.1 ∧ a.2 < b.2)

instance : DecidableRel keyLt := fun a b => by
  unfold keyLt; exact inferInstance

/-- Insert a key into a `keyLt`-sorted list of distinct keys, keeping it
sorted and duplicate-free. -/
def insertKey (k : Nat × Nat) : List (Nat × Nat) → List (Nat × Nat)
  | [] => [k]
  | x :: xs =>
    if k = x then x :: xs
    else if keyLt k x then k :: x :: xs
    else x :: insertKey k xs

/-- The distinct weekly grouping keys of a votes table (the `GROUP BY` of
the `weekly_votes` CTE), in the view's `ORDER BY Year, WeekNumber` order. -/
def sortedKeys (votes : List Vote) : List (Nat × Nat) :=
  votes.foldr (fun v acc => insertKey (bucketKey v) acc) []

/-- `COUNT(*)` of the votes falling in bucket `k`. -/
def voteCount (votes : List Vote) (k : Nat × Nat) : Nat :=
  votes.countP (fun v => bucketKey v == k)

/-- A row of the `weekly_votes` CTE / the `outlier_weeks` view. -/
structure WeekRow where
  Year : Nat
  WeekNumber : Nat
  VoteCount : Nat
deriving DecidableEq, Repr

/-- The `weekly_votes` CTE: one row per distinct `(Year, WeekNumber)`
bucket with its vote count, in `ORDER BY Year, WeekNumber` order. -/
def weekly_votes (votes : List Vote) : List WeekRow :=
  (sortedKeys votes).map fun k => ⟨k.1, k.2, voteCount votes k⟩

/-- The `average_votes` CTE: `AVG(VoteCount)` over all weekly buckets. -/
def meanVotes (votes : List Vote) : ℚ :=
  (((weekly_votes votes).map fun r => (r.VoteCount : ℚ)).sum) /
    ((weekly_votes votes).length : ℚ)

/-- The rows of the `blog_analysis.outlier_weeks` view:
`WHERE ABS(1 - (VoteCount / MeanVotes)) > 0.2`, in
`ORDER BY Year ASC, WeekNumber ASC` order. -/
def outlier_weeks (votes : List Vote) : List WeekRow :=
  (weekly_votes votes).filter fun r =>
    decide ((0.2 : ℚ) < |1 - (r.VoteCount : ℚ) / meanVotes votes|)

/-! ## Ingestion (`ingest.py`, `ingest_votes`) -/

/-- One row of the source `INSERT ... SELECT ... ON CONFLICT (Id) DO NOTHING`:
the row is appended unless a row with its `Id` is already in the table. -/
def insertIfAbsent (t : List Vote) (v : Vote) : List Vote :=
  if t.any (fun r => r.Id == v.Id) then t else t ++ [v]

/-- The whole `INSERT ... ON CONFLICT (Id) DO NOTHING` statement: the file's
records are inserted in order, each skipped when its `Id` is present
(also when the conflicting row came earlier in the same file). -/
def insertAll (t : List Vote) (file : List Vote) : List Vote :=
  file.foldl insertIfAbsent t

/-- The statement's reported row count: number of rows actually inserted. -/
def insertedCount (t : List Vote) (file : List Vote) : Nat :=
  (insertAll t file).length - t.length

/-- Point inside `ingest_votes` where an injected external error (a raised
exception from the store) occurs: at `duckdb.connect`, during the
schema/table creation statements (before any change takes effect), or at
the count/insert statements (the single `INSERT` is atomic, so the table
is unchanged on failure). -/
inductive IngestFail
  | connectF
  | ensureF
  | insertF
deriving DecidableEq

/-- Observable outcome of one `ingest_votes()` call: final `votes` table
(`none` = the table does not exist), log lines, lines printed to stdout,
whether the connection was closed, the Python return value, and the
exception propagated to the caller (`none` = returned normally). -/
structure IngestResult where
  table : Option (List Vote)
  log : List String
  printed : List String
  connClosed : Bool
  retval : Option Nat
  raised : Option String
deriving Repr

/-- `ingest_votes()` of `ingest.py`.  `table` is the current contents of
`blog_analysis.votes` (`none` when the table does not yet exist),
`fileExists` is `DATA_PATH.exists()`, `file` holds the parsed records of
`uncommitted/votes.jsonl` in file order, and `failAt` injects an external
error (with its message) at the corresponding step, `none` meaning every
store call succeeds.  `CREATE SCHEMA / TABLE IF NOT EXISTS` run before the
file-existence check; every exception is caught by the `except` block and
logged, and the `finally` block closes the connection when one was opened. -/
def ingest_votes (table : Option (List Vote)) (fileExists : Bool)
    (file : List Vote) (failAt : Option (IngestFail × String)) : IngestResult :=
  match failAt with
  | some (.connectF, m) =>
      { table := table
        log := ["Connecting to DuckDB...", "Error during ingestion: " ++ m]
        printed := []
        connClosed := false
        retval := none
        raised := none }
  | some (.ensureF, m) =>
      { table := table
        log := ["Connecting to DuckDB...",
                "Creating schema and table if they don't exist...",
                "Error during ingestion: " ++ m, "Connection closed."]
        printed := []
        connClosed := true
        retval := none
        raised := none }
  | _ =>
      let t0 := table.getD []
      if !fileExists then
        { table := some t0
          log := ["Connecting to DuckDB...",
                  "Creating schema and table if they don't exist...",
                  "Dataset not found. Please run: poetry run exercise fetch-data",
                  "Connection closed."]
          printed := []
          connClosed := true
          retval := none
          raised := none }
      else
        match failAt with
        | some (.insertF, m) =>
            { table := some t0
              log := ["Connecting to DuckDB...",
                      "Creating schema and table if they don't exist...",
                      "Ingesting data from: uncommitted/votes.jsonl",
                      "Error during ingestion: " ++ m, "Connection closed."]
              printed := []
              connClosed := true
              retval := none
              raised := none }
        | _ =>
            let t1 := insertAll t0 file
            let n := t1.length - t0.length
            { table := some t1
              log := ["Connecting to DuckDB...",
                      "Creating schema and table if they don't exist...",
                      "Ingesting data from: uncommitted/votes.jsonl",
                      "Inserted " ++ toString n ++ " new records.",
                      "Connection closed."]
              printed := ["Ingested " ++ toString n ++ " new vote records."]
              connClosed := true
              retval := none
              raised := none }

/-! ## Outlier view creation (`outliers.py`, `calculate_outliers`) -/

/-- The store as seen by `calculate_outliers`: the `votes` table and the
current `outlier_weeks` view, the latter modelled extensionally by the
rows it yields (`none` = no such view exists). -/
structure OStore where
  votes : List Vote
  outlierView : Option (List WeekRow)
deriving Repr

/-- Observable outcome of one `calculate_outliers` call. -/
structure CalcResult where
  store : OStore
  log : List String
  printed : List String
  connClosed : Bool
  raised : Option String
deriving Repr

/-- `calculate_outliers(con)` of `outliers.py`.  `suppliedConn` is true when
the caller passed an open connection (`con is not None`); `failCreate`
injects an external error (with its message) raised while creating or
querying the view.  `own_connection := con is None`; on error the `except`
block logs and re-raises; the `finally` block closes the connection only
when `own_connection` holds. -/
def calculate_outliers (store : OStore) (suppliedConn : Bool)
    (failCreate : Option String) : CalcResult :=
  let ownConnection := !suppliedConn
  match failCreate with
  | some m =>
      { store := store
        log := ["Connecting to DuckDB...", "Creating outlier_weeks view...",
                "Error creating outlier_weeks view: " ++ m]
          ++ (if ownConnection then ["Connection closed."] else [])
        printed := []
        connClosed := ownConnection
        raised := some m }
  | none =>
      let view := outlier_weeks store.votes
      let n := view.length
      { store := { votes := store.votes, outlierView := some view }
        log := ["Connecting to DuckDB...", "Creating outlier_weeks view...",
                "Created outlier_weeks view with " ++ toString n ++ " rows"]
          ++ (if ownConnection then ["Connection closed."] else [])
        printed := ["Created outlier_weeks view with " ++ toString n ++
                    " outlier weeks detected"]
        connClosed := ownConnection
        raised := none }

/-! ## Helper lemmas about the sorted grouping keys -/

theorem keyLt_trans {a b c : Nat × Nat} (h1 : keyLt a b) (h2 : keyLt b c) :
    keyLt a c := by
  rcases h1 with h1 | ⟨e1, h1⟩ <;> rcases h2 with h2 | ⟨e2, h2⟩
  · exact Or.inl (h1.trans h2)
  · exact Or.inl (e2 ▸ h1)
  · exact Or.inl (e1 ▸ h2)
  · exact Or.inr ⟨e1.trans e2, h1.trans h2⟩

theorem keyLt_total (a b : Nat × Nat) : a = b ∨ keyLt a b ∨ keyLt b a := by
  rcases Nat.lt_trichotomy a.1 b.1 with h | h | h
  · exact Or.inr (Or.inl (Or.inl h))
  · rcases Nat.lt_trichotomy a.2 b.2 with h2 | h2 | h2
    · exact Or.inr (Or.inl (Or.inr ⟨h, h2⟩))
    · exact Or.inl (Prod.ext h h2)
    · exact Or.inr (Or.inr (Or.inr ⟨h.symm, h2⟩))
  · exact Or.inr (Or.inr (Or.inl h))

theorem mem_insertKey {k k' : Nat × Nat} {l : List (Nat × Nat)} :
    k' ∈ insertKey k l ↔ k' = k ∨ k' ∈ l := by
  induction l with
  | nil => simp [insertKey]
  | cons x xs ih =>
    by_cases h1 : k = x
    · subst h1; simp [insertKey]
    · by_cases h2 : keyLt k x
      · simp [insertKey, h1, h2, ih]
      · simp [insertKey, h1, h2, ih]
        tauto

theorem pairwise_insertKey {k : Nat × Nat} {l : List (Nat × Nat)}
    (h : List.Pairwise keyLt l) : List.Pairwise keyLt (insertKey k l) := by
  induction l with
  | nil => simp [insertKey]
  | cons x xs ih =>
    rcases List.pairwise_cons.mp h with ⟨hx, hxs⟩
    by_cases h1 : k = x
    · simpa [insertKey, h1] using h
    · by_cases h2 : keyLt k x
      · simp only [insertKey, if_neg h1, if_pos h2]
        refine List.pairwise_cons.mpr ⟨?_, h⟩
        intro y hy
        rcases List.mem_cons.mp hy with rfl | hy
        · exact h2
        · exact keyLt_trans h2 (hx y hy)
      · have hxk : keyLt x k := by
          rcases keyLt_total k x with he | hlt | hgt
          · exact absurd he h1
          · exact absurd hlt h2
          · exact hgt
        simp only [insertKey, if_neg h1, if_neg h2]
        refine List.pairwise_cons.mpr ⟨?_, ih hxs⟩
        intro y hy
        rcases mem_insertKey.mp hy with rfl | hy
        · exact hxk
        · exact hx y hy

theorem pairwise_sortedKeys (votes : List Vote) :
    List.Pairwise keyLt (sortedKeys votes) := by
  induction votes with
  | nil => simp [sortedKeys]
  | cons v vs ih => exact pairwise_insertKey ih

theorem mem_sortedKeys {votes : List Vote} {k : Nat × Nat} :
    k ∈ sortedKeys votes ↔ k ∈ votes.map bucketKey := by
  induction votes with
  | nil => simp [sortedKeys]
  | cons v vs ih =>
    simp only [sortedKeys, List.foldr_cons, List.map_cons, List.mem_cons]
    rw [show vs.foldr (fun v acc => insertKey (bucketKey v) acc) [] = sortedKeys vs from rfl]
    rw [mem_insertKey, ih]

/-! ## Helper lemmas about insert-if-absent ingestion -/

theorem any_insertIfAbsent {t : List Vote} {v : Vote} {p : Vote → Bool}
    (h : t.any p = true) : (insertIfAbsent t v).any p = true := by
  unfold insertIfAbsent
  split
  · exact h
  · simp [List.any_append, h]

theorem any_insertAll {t : List Vote} {f : List Vote} {p : Vote → Bool}
    (h : t.any p = true) : (insertAll t f).any p = true := by
  induction f generalizing t with
  | nil => exact h
  | cons v vs ih => exact ih (any_insertIfAbsent h)

theorem insertAll_id_present {t : List Vote} {f : List Vote} :
    ∀ v ∈ f, (insertAll t f).any (fun r => r.Id == v.Id) = true := by
  induction f generalizing t with
  | nil => intro v hv; cases hv
  | cons w ws ih =>
    intro v hv
    rcases List.mem_cons.mp hv with rfl | hv
    · have hw : (insertIfAbsent t v).any (fun r => r.Id == v.Id) = true := by
        unfold insertIfAbsent
        split
        · assumption
        · simp [List.any_append]
      show (insertAll (insertIfAbsent t v) ws).any _ = true
      exact any_insertAll hw
    · exact ih v hv

theorem insertAll_of_all_present {t : List Vote} {f : List Vote}
    (h : ∀ v ∈ f, t.any (fun r => r.Id == v.Id) = true) : insertAll t f = t := by
  induction f generalizing t with
  | nil => rfl
  | cons v vs ih =>
    have h1 : insertIfAbsent t v = t := by
      unfold insertIfAbsent
      rw [if_pos (h v (List.mem_cons_self v vs))]
    show insertAll (insertIfAbsent t v) vs = t
    rw [h1]
    exact ih fun w hw => h w (List.mem_cons_of_mem v hw)

theorem insertAll_insertAll (t f : List Vote) :
    insertAll (insertAll t f) f = insertAll t f :=
  insertAll_of_all_present fun v hv => insertAll_id_present v hv

theorem insertAll_append (t f g : List Vote) :
    insertAll t (f ++ g) = insertAll (insertAll t f) g :=
  List.foldl_append ..

theorem filter_insertAll {t : List Vote} {f : List Vote} {i : Int}
    (h : t.any (fun r => r.Id == i) = true) :
    (insertAll t f).filter (fun r => r.Id == i) = t.filter (fun r => r.Id == i) := by
  induction f generalizing t with
  | nil => rfl
  | cons v vs ih =>
    show (insertAll (insertIfAbsent t v) vs).filter _ = _
    rw [ih (any_insertIfAbsent h)]
    unfold insertIfAbsent
    split
    · rfl
    · next hv =>
      have hvi : (v.Id == i) = false := by
        by_contra hne
        have : v.Id = i := by
          have := eq_true_of_ne_false hne
          exact beq_iff_eq.mp this
        subst this
        exact absurd h (by simpa using hv)
      simp [List.filter_append, hvi]

/-! ## Claim theorems -/

/-- C1: a `(Year, WeekNumber)` bucket with vote count `c` appears as a row
of the `outlier_weeks` view if and only if it is a weekly bucket of the
data, `c` is its vote count, and `abs(1 - c/mean) > 0.2`, where `mean` is
the arithmetic mean of the vote counts of all weekly buckets present in
the data. -/
theorem outlier_weeks_row_iff (votes : List Vote) (y w c : Nat) :
    (⟨y, w, c⟩ : WeekRow) ∈ outlier_weeks votes ↔
      ((y, w) ∈ votes.map bucketKey ∧ c = voteCount votes (y, w) ∧
        |1 - (c : ℚ) / meanVotes votes| > (0.2 : ℚ)) := by
  simp only [outlier_weeks, weekly_votes, List.mem_filter, List.mem_map,
    decide_eq_true_eq, WeekRow.mk.injEq, gt_iff_lt]
  constructor
  · rintro ⟨⟨⟨ky, kw⟩, hk, rfl, rfl, rfl⟩, hp⟩
    exact ⟨List.mem_map.mp (mem_sortedKeys.mp hk), rfl, hp⟩
  · rintro ⟨hk, rfl, hp⟩
    exact ⟨⟨(y, w), mem_sortedKeys.mpr (List.mem_map.mpr hk), rfl, rfl, rfl⟩, hp⟩

/-- C4: for all consecutive pairs of rows of the `outlier_weeks` view, the
pair `(Year, WeekNumber)` is strictly increasing lexicographically
(ascending by year, then by week number). -/
theorem outlier_weeks_sorted (votes : List Vote) :
    List.Chain' (fun r s : WeekRow =>
      r.Year < s.Year ∨ (r.Year = s.Year ∧ r.WeekNumber < s.WeekNumber))
      (outlier_weeks votes) := by
  have hmap : List.Pairwise (fun r s : WeekRow =>
      r.Year < s.Year ∨ (r.Year = s.Year ∧ r.WeekNumber < s.WeekNumber))
      (weekly_votes votes) := by
    unfold weekly_votes
    rw [List.pairwise_map]
    exact (pairwise_sortedKeys votes).imp fun h => h
  exact (hmap.filter _).chain'

/-- C3: when the `votes` table is empty, `calculate_outliers` still creates
the `outlier_weeks` view, the view has exactly 0 rows, and no error (in
particular no division-by-zero) is raised. -/
theorem calculate_outliers_empty (view0 : Option (List WeekRow)) (suppliedConn : Bool) :
    (calculate_outliers ⟨[], view0⟩ suppliedConn none).store.outlierView = some [] ∧
    (calculate_outliers ⟨[], view0⟩ suppliedConn none).raised = none ∧
    (calculate_outliers ⟨[], view0⟩ suppliedConn none).printed =
      ["Created outlier_weeks view with 0 outlier weeks detected"] := by
  refine ⟨?_, ?_, ?_⟩
  · cases suppliedConn <;> rfl
  · cases suppliedConn <;> rfl
  · cases suppliedConn <;> with_unfolding_all rfl

/-- C5: if the source file does not exist, `ingest_votes` leaves the `votes`
table (hence its row count) unchanged, logs the "Dataset not found"
condition instead of raising, and still closes the connection. -/
theorem ingest_missing_file (rows file : List Vote) :
    (ingest_votes (some rows) false file none).table = some rows ∧
    "Dataset not found. Please run: poetry run exercise fetch-data"
      ∈ (ingest_votes (some rows) false file none).log ∧
    (ingest_votes (some rows) false file none).raised = none ∧
    (ingest_votes (some rows) false file none).connClosed = true := by
  refine ⟨rfl, ?_, rfl, rfl⟩
  simp [ingest_votes]

/-- C6: `calculate_outliers` closes the store connection if and only if it
opened the connection itself (no connection supplied); a caller-supplied
connection is never closed, on any exit path including errors. -/
theorem calculate_outliers_conn_ownership (store : OStore) (suppliedConn : Bool)
    (failCreate : Option String) :
    (calculate_outliers store suppliedConn failCreate).connClosed = !suppliedConn := by
  cases failCreate <;> rfl

/-- C7: every error raised while creating or querying the `outlier_weeks`
view is logged with the "Error creating outlier_weeks view" context and
then re-raised to the caller. -/
theorem calculate_outliers_error_propagates (store : OStore) (suppliedConn : Bool)
    (m : String) :
    (calculate_outliers store suppliedConn (some m)).raised = some m ∧
    ("Error creating outlier_weeks view: " ++ m)
      ∈ (calculate_outliers store suppliedConn (some m)).log := by
  refine ⟨rfl, ?_⟩
  cases suppliedConn <;> simp [calculate_outliers]

/-- C2: ingestion is idempotent.  Re-running `ingest_votes` on the same file
leaves the table (hence its row count) identical, the second run reports 0
inserted rows, a grown file `f ++ g` reports only the newly added records,
and for an `Id` already present in the table the rows carrying that `Id`
are exactly the original ones (no duplicate, no alteration). -/
theorem ingest_idempotent (t f g : List Vote) (i : Int)
    (hi : ∃ r ∈ t, r.Id = i) :
    (ingest_votes (ingest_votes (some t) true f none).table true f none).table
        = (ingest_votes (some t) true f none).table
  ∧ (ingest_votes (ingest_votes (some t) true f none).table true f none).printed
        = ["Ingested 0 new vote records."]
  ∧ (ingest_votes (ingest_votes (some t) true f none).table true (f ++ g) none).printed
        = ["Ingested " ++ toString (insertedCount (insertAll t f) g) ++ " new vote records."]
  ∧ (insertAll t f).filter (fun r => r.Id == i) = t.filter (fun r => r.Id == i) := by
  have key := insertAll_insertAll t f
  refine ⟨?_, ?_, ?_, ?_⟩
  · show some (insertAll (insertAll t f) f) = some (insertAll t f)
    rw [key]
  · show ["Ingested " ++
        toString ((insertAll (insertAll t f) f).length - (insertAll t f).length) ++
        " new vote records."] = _
    rw [key, Nat.sub_self]
    rfl
  · show ["Ingested " ++
        toString ((insertAll (insertAll t f) (f ++ g)).length - (insertAll t f).length) ++
        " new vote records."] = _
    rw [insertAll_append, key]
    rfl
  · rcases hi with ⟨r, hr, hri⟩
    exact filter_insertAll (List.any_eq_true.mpr ⟨r, hr, by simp [hri]⟩)

/-- C2 witness: the idempotence theorem applied to the concrete table
holding the vote with `Id` 1, a file repeating that vote plus a new one,
and a one-record growth. -/
theorem ingest_idempotent_witness :
    (ingest_votes (ingest_votes (some [⟨1, 1, 2, ⟨2022, 1, 2⟩⟩]) true
          [⟨1, 1, 2, ⟨2022, 1, 2⟩⟩, ⟨2, 1, 2, ⟨2022, 1, 9⟩⟩] none).table true
          [⟨1, 1, 2, ⟨2022, 1, 2⟩⟩, ⟨2, 1, 2, ⟨2022, 1, 9⟩⟩] none).table
        = (ingest_votes (some [⟨1, 1, 2, ⟨2022, 1, 2⟩⟩]) true
          [⟨1, 1, 2, ⟨2022, 1, 2⟩⟩, ⟨2, 1, 2, ⟨2022, 1, 9⟩⟩] none).table
  ∧ (ingest_votes (ingest_votes (some [⟨1, 1, 2, ⟨2022, 1, 2⟩⟩]) true
          [⟨1, 1, 2, ⟨2022, 1, 2⟩⟩, ⟨2, 1, 2, ⟨2022, 1, 9⟩⟩] none).table true
          [⟨1, 1, 2, ⟨2022, 1, 2⟩⟩, ⟨2, 1, 2, ⟨2022, 1, 9⟩⟩] none).printed
        = ["Ingested 0 new vote records."]
  ∧ (ingest_votes (ingest_votes (some [⟨1, 1, 2, ⟨2022, 1, 2⟩⟩]) true
          [⟨1, 1, 2, ⟨2022, 1, 2⟩⟩, ⟨2, 1, 2, ⟨2022, 1, 9⟩⟩] none).table true
          ([⟨1, 1, 2, ⟨2022, 1, 2⟩⟩, ⟨2, 1, 2, ⟨2022, 1, 9⟩⟩] ++ [⟨3, 1, 2, ⟨2022, 1, 16⟩⟩]) none).printed
        = ["Ingested " ++
            toString (insertedCount
              (insertAll [⟨1, 1, 2, ⟨2022, 1, 2⟩⟩]
                [⟨1, 1, 2, ⟨2022, 1, 2⟩⟩, ⟨2, 1, 2, ⟨2022, 1, 9⟩⟩])
              [⟨3, 1, 2, ⟨2022, 1, 16⟩⟩]) ++ " new vote records."]
  ∧ (insertAll [⟨1, 1, 2, ⟨2022, 1, 2⟩⟩]
        [⟨1, 1, 2, ⟨2022, 1, 2⟩⟩, ⟨2, 1, 2, ⟨2022, 1, 9⟩⟩]).filter (fun r => r.Id == 1)
      = [(⟨1, 1, 2, ⟨2022, 1, 2⟩⟩ : Vote)].filter (fun r => r.Id == 1) :=
  ingest_idempotent [⟨1, 1, 2, ⟨2022, 1, 2⟩⟩]
    [⟨1, 1, 2, ⟨2022, 1, 2⟩⟩, ⟨2, 1, 2, ⟨2022, 1, 9⟩⟩] [⟨3, 1, 2, ⟨2022, 1, 16⟩⟩] 1
    ⟨⟨1, 1, 2, ⟨2022, 1, 2⟩⟩, by decide⟩

/-- C8 counterexample: ingesting one new record into an empty table inserts
exactly 1 row, yet the Python return value of `ingest_votes` is `None`, not
that count — the claim that the count is the function's return value fails. -/
theorem ingest_retval_cex :
    insertedCount [] [⟨1, 1, 2, ⟨2022, 1, 2⟩⟩] = 1 ∧
    (ingest_votes (some []) true [⟨1, 1, 2, ⟨2022, 1, 2⟩⟩] none).retval ≠
      some (insertedCount [] [⟨1, 1, 2, ⟨2022, 1, 2⟩⟩]) := by
  refine ⟨rfl, ?_⟩
  intro h
  simp [ingest_votes] at h

/-- C8 amended: on successful ingestion, `ingest_votes` reports the count of
rows actually inserted (rows already present are not counted) by logging it
and printing the one-line summary; the function itself returns no value
(`None`). -/
theorem ingest_reports_count (t file : List Vote) :
    (ingest_votes (some t) true file none).printed
        = ["Ingested " ++ toString (insertedCount t file) ++ " new vote records."]
  ∧ ("Inserted " ++ toString (insertedCount t file) ++ " new records.")
        ∈ (ingest_votes (some t) true file none).log
  ∧ (ingest_votes (some t) true file none).retval = none := by
  refine ⟨rfl, ?_, rfl⟩
  simp [ingest_votes, insertedCount]

/-- C9: every error occurring during ingestion (connecting, schema/table
setup, or the count/insert statements — the latter only reachable when the
file exists) is caught, logged with its message, and `ingest_votes` returns
normally without propagating any exception. -/
theorem ingest_error_suppressed (table : Option (List Vote)) (fileExists : Bool)
    (file : List Vote) (step : IngestFail) (m : String)
    (h : step = IngestFail.insertF → fileExists = true) :
    (ingest_votes table fileExists file (some (step, m))).raised = none ∧
    ("Error during ingestion: " ++ m)
      ∈ (ingest_votes table fileExists file (some (step, m))).log ∧
    (ingest_votes table fileExists file (some (step, m))).retval = none := by
  cases step with
  | connectF => exact ⟨rfl, by simp [ingest_votes], rfl⟩
  | ensureF => exact ⟨rfl, by simp [ingest_votes], rfl⟩
  | insertF =>
    have hf := h rfl
    subst hf
    exact ⟨rfl, by simp [ingest_votes], rfl⟩

/-- C9 witness: the error-suppression theorem applied to a store error
injected at the insert statement of a run on an existing empty table. -/
theorem ingest_error_suppressed_witness :
    (ingest_votes (some []) true [] (some (IngestFail.insertF, "Database error"))).raised = none ∧
    ("Error during ingestion: " ++ "Database error")
      ∈ (ingest_votes (some []) true [] (some (IngestFail.insertF, "Database error"))).log ∧
    (ingest_votes (some []) true [] (some (IngestFail.insertF, "Database error"))).retval = none :=
  ingest_error_suppressed (some []) true [] IngestFail.insertF "Database error" fun _ => rfl

/-- C10: the weekly grouping key pairs the calendar year with the ISO week
number, which disagree at year boundaries: the vote of 2022-01-01 (ISO week
52 of ISO year 2021) is bucketed as `(2022, 52)`, the same bucket as votes
of 2022-12-26, which lies 359 days later — so the bucket `(2022, 52)`
corresponds to no contiguous calendar week of 2022. -/
theorem bucket_key_year_boundary :
    bucketKey ⟨1, 1, 2, ⟨2022, 1, 1⟩⟩ = (2022, 52)
  ∧ isoWeekPair ⟨2022, 1, 1⟩ = (2021, 52)
  ∧ bucketKey ⟨2, 1, 2, ⟨2022, 12, 26⟩⟩ = (2022, 52)
  ∧ 6 < rataDie ⟨2022, 12, 26⟩ - rataDie ⟨2022, 1, 1⟩ := by
  decide
